import Mathlib

/-!
Shallow embedding of the numerical calibration core of the
UltrasoundCalibrationWizard repository (two 3D Slicer modules:
`ImagelessUSCalibration.py` and `PointerBasedUSCalibration.py`).

Conventions of the embedding:
* Python `double[3]` arrays become `Vec3`, a record of three real numbers.
* `vtkMath.Add/Subtract/MultiplyScalar/Dot/Cross/Normalize` become the
  corresponding `Vec3` operations.  `vtkMath.Normalize` divides by the
  Euclidean norm when it is nonzero and leaves the vector unchanged when
  the norm is zero; since in Lean `(0 : Real)⁻¹ = 0`, the single formula
  `(norm v)⁻¹ • v` reproduces both branches (the zero vector maps to the
  zero vector).
* 4x4 vtk matrices become `Matrix (Fin 4) (Fin 4) Real`.
* `vtkLandmarkTransform` is an external VTK facility, not code of this
  repository; the calibration logic treats it as a black box that turns a
  source point list and a target point list into a 4x4 matrix, so the
  embedding passes it around as an explicit function argument `solve`.
* MRML node references that may be absent become `Option`; attribute
  lookup plus Python `float()` parsing of the depth attribute becomes the
  inductive `DepthAttr` (the attribute is absent, present but not
  parseable, or parseable to a number).
* Python exceptions become `Except String`: the value `.error e` means the
  named exception escapes the function.
* The fiducial-list bookkeeping (`UndoPoints`, `DeleteNthPoint`,
  `ResetPoints`) is generic in the entry type, since it only moves list
  entries around.
-/

namespace USCalib

/-- A 3D point or vector with real coordinates, modelling the Python
`double[3]` arrays handed to `vtkMath`. -/
structure Vec3 where
  x : Real
  y : Real
  z : Real

namespace Vec3

theorem vec3_ext_iff {a b : Vec3} : a = b ↔ a.x = b.x ∧ a.y = b.y ∧ a.z = b.z := by
  constructor
  · intro h; subst h; exact ⟨rfl, rfl, rfl⟩
  · rintro ⟨hx, hy, hz⟩; cases a; cases b; simp_all

/-- `vtkMath.Add`. -/
def add (a b : Vec3) : Vec3 := ⟨a.x + b.x, a.y + b.y, a.z + b.z⟩

/-- `vtkMath.Subtract` (componentwise `a - b`). -/
def sub (a b : Vec3) : Vec3 := ⟨a.x - b.x, a.y - b.y, a.z - b.z⟩

/-- `vtkMath.MultiplyScalar`. -/
def smul (c : Real) (v : Vec3) : Vec3 := ⟨c * v.x, c * v.y, c * v.z⟩

/-- `vtkMath.Dot`. -/
def dot (a b : Vec3) : Real := a.x * b.x + a.y * b.y + a.z * b.z

/-- `vtkMath.Cross` (`c = a x b`). -/
def cross (a b : Vec3) : Vec3 :=
  ⟨a.y * b.z - a.z * b.y, a.z * b.x - a.x * b.z, a.x * b.y - a.y * b.x⟩

/-- Euclidean norm of a `Vec3`, as used by `vtkMath.Normalize` and
`vtkMath.Distance2BetweenPoints`. -/
noncomputable def norm (v : Vec3) : Real := Real.sqrt (dot v v)

/-- `vtkMath.Normalize`: divide by the norm when it is nonzero, leave the
vector unchanged otherwise.  Because `(0 : Real)⁻¹ = 0` in Lean, the single
formula below agrees with both branches of the VTK implementation. -/
noncomputable def normalize (v : Vec3) : Vec3 := smul (norm v)⁻¹ v

end Vec3

/-- Euclidean distance between two points:
`math.sqrt(vtk.vtkMath.Distance2BetweenPoints(a, b))`. -/
noncomputable def dist3 (a b : Vec3) : Real := Vec3.norm (Vec3.sub b a)

/-!
## Point-list bookkeeping (`PointerBasedUSCalibrationLogic`)

`UndoPoints`, `DeleteNthPoint` and `ResetPoints` act on the pair of
fiducial lists (`GetFromFiducialListNode`, `GetToFiducialListNode`).
`GetNumberOfFiducials` is `List.length` and `RemoveMarkup n` is
`List.eraseIdx n`.  The early returns for an absent node are irrelevant to
the list contents, so the embedding takes the two lists directly.
-/

/-- `PointerBasedUSCalibrationLogic.UndoPoints`: remove the most recently
added point from each fiducial list, guarded by `GetNumberOfFiducials() > 0`
on each list separately. -/
def undoPoints {α : Type} (fromList toList : List α) : List α × List α :=
  ( if fromList.length > 0 then fromList.eraseIdx (fromList.length - 1) else fromList,
    if toList.length > 0 then toList.eraseIdx (toList.length - 1) else toList )

/-- `PointerBasedUSCalibrationLogic.DeleteNthPoint`: remove the point at
index `n` from each fiducial list, guarded by `GetNumberOfFiducials() > n`
on each list separately. -/
def deleteNthPoint {α : Type} (fromList toList : List α) (n : Nat) : List α × List α :=
  ( if fromList.length > n then fromList.eraseIdx n else fromList,
    if toList.length > n then toList.eraseIdx n else toList )

/-- `PointerBasedUSCalibrationLogic.ResetPoints`: `RemoveAllMarkups` on both
fiducial lists. -/
def resetPoints {α : Type} (fromList toList : List α) : List α × List α :=
  ([], [])

/-!
## Error computation (`PointerBasedUSCalibrationLogic.ComputeErrors`)
-/

/-- A 4x4 homogeneous matrix (`vtkMatrix4x4`). -/
abbrev Mat4 := Matrix (Fin 4) (Fin 4) Real

/-- `vtkMatrix4x4.MultiplyPoint` on the homogeneous point `[x, y, z, 1]`,
keeping only the first three output components (`[:3]`, no perspective
division), exactly as `ComputeErrors` does. -/
def transformPoint (M : Mat4) (p : Vec3) : Vec3 :=
  ⟨ M 0 0 * p.x + M 0 1 * p.y + M 0 2 * p.z + M 0 3 * 1,
    M 1 0 * p.x + M 1 1 * p.y + M 1 2 * p.z + M 1 3 * 1,
    M 2 0 * p.x + M 2 1 * p.y + M 2 2 * p.z + M 2 3 * 1 ⟩

/-- A fiducial as stored in a markups node: a label
(`GetNthFiducialLabel`) and a position (`GetNthFiducialPosition`). -/
structure Fiducial where
  label : String
  pos : Vec3

/-- The default fiducial read when an index is out of range: the label
defaults to the empty string and the position to the `[0, 0, 0]` buffer the
caller initializes. -/
def defaultFiducial : Fiducial := ⟨"", ⟨0, 0, 0⟩⟩

/-- One row of the error table built by `ComputeErrors`.  In the Python it
is the list `["", "", ""]` whose slots `RESULTS_IMAGE_POINTS_INDEX = 0`,
`RESULTS_PROBE_POINTS_INDEX = 1` and `RESULTS_ERROR_INDEX = 2` are filled
in; the error slot is `none` when it is never overwritten. -/
structure ErrorElement where
  imageLabel : String
  probeLabel : String
  err : Option Real

theorem ErrorElement.errorElement_ext_iff {a b : ErrorElement} :
    a = b ↔ a.imageLabel = b.imageLabel ∧ a.probeLabel = b.probeLabel ∧ a.err = b.err := by
  constructor
  · intro h; subst h; exact ⟨rfl, rfl, rfl⟩
  · rintro ⟨h1, h2, h3⟩; cases a; cases b; simp_all

/-- The state of the fiducial registration wizard node consumed by
`ComputeErrors`: the two fiducial lists and the output transform node
(read through `GetMatrixTransformToParent`), each possibly absent. -/
structure FrwState where
  fromFiducialList : Option (List Fiducial)
  toFiducialList : Option (List Fiducial)
  outputTransform : Option Mat4

/-- The body of the `ComputeErrors` loop (lines 658-682): start from the
row `["", "", ""]`, fill the label slots when the index is in range of the
respective list, and fill the error slot with the distance between the
transformed from-point and the to-point when the index is in range of both
lists. -/
noncomputable def errorRow (fromList toList : List Fiducial) (outputMatrix : Mat4)
    (i : Nat) : ErrorElement :=
  { imageLabel :=
      if fromList.length > i then (fromList.getD i defaultFiducial).label else ""
    probeLabel :=
      if toList.length > i then (toList.getD i defaultFiducial).label else ""
    err :=
      if fromList.length > i ∧ toList.length > i then
        some (dist3 (toList.getD i defaultFiducial).pos
          (transformPoint outputMatrix (fromList.getD i defaultFiducial).pos))
      else none }

/-- `PointerBasedUSCalibrationLogic.ComputeErrors`, line for line:
return `[]` when the node, either fiducial list, or the output transform is
absent; return `[]` when the two lists differ in length or the longer one
has fewer than 3 entries; otherwise build one row per index. -/
noncomputable def computeErrors (frwNode : Option FrwState) : List ErrorElement :=
  match frwNode with
  | none => []
  | some s =>
    match s.fromFiducialList, s.toFiducialList, s.outputTransform with
    | some fromList, some toList, some outputMatrix =>
      let maxNumFiducials := max fromList.length toList.length
      if fromList.length ≠ toList.length ∨ maxNumFiducials < 3 then []
      else (List.range maxNumFiducials).map (errorRow fromList toList outputMatrix)
    | _, _, _ => []

/-!
## Imageless calibration (`ImagelessUSCalibrationLogic.ComputeCalibration`)
-/

/-- Result of `float(usCalibrationNode.GetAttribute(DEPTH_ROLE))`: the
attribute can be absent (`GetAttribute` returns `None` and `float(None)`
raises `TypeError`), present but not parseable as a number (`float` raises
`ValueError`), or parseable to a numeric value. -/
inductive DepthAttr where
  | missing : DepthAttr
  | unparseable : DepthAttr
  | value (d : Real) : DepthAttr

/-- The pieces of scene state `ComputeCalibration` reads from the
calibration node: the two corner-point lists (referenced markups nodes,
possibly absent), the depth attribute, the ultrasound image pixel
dimensions (`none` when the image node or its image data is absent), and
whether an output `ImageToProbe` transform node is referenced. -/
structure ImagelessNode where
  markedPoints : Option (List Vec3)
  unmarkedPoints : Option (List Vec3)
  depthAttr : DepthAttr
  imageDimensions : Option (Nat × Nat)
  hasOutputTransformNode : Bool

/-- What one call of `ComputeCalibration` writes back to the scene: the
`OUTPUT_MESSAGE_ROLE` attribute, if it was set, and the matrix written to
the output transform node by `SetMatrixTransformToParent`, if any. -/
structure CalibOutcome where
  message : Option String
  transform : Option Mat4

theorem CalibOutcome.calibOutcome_ext_iff {a b : CalibOutcome} :
    a = b ↔ a.message = b.message ∧ a.transform = b.transform := by
  constructor
  · intro h; subst h; exact ⟨rfl, rfl⟩
  · rintro ⟨h1, h2⟩; cases a; cases b; simp_all

/-- Lines 604-610: the near point of a side is the midpoint of its two
corner points (`Add` then `MultiplyScalar 0.5`). -/
noncomputable def nearPoint (corner1 corner2 : Vec3) : Vec3 :=
  Vec3.smul 0.5 (Vec3.add corner1 corner2)

/-- Lines 622-628 and 637-643: the unit depth direction of a side is the
normalized cross product of the across vector with the corner-to-corner
vector of that side. -/
noncomputable def farVector (markedUnmarkedVector cornerVector : Vec3) : Vec3 :=
  Vec3.normalize (Vec3.cross markedUnmarkedVector cornerVector)

/-- Lines 637-643: the far point of a side is its near point plus the
depth direction scaled by the depth. -/
noncomputable def farPoint (near : Vec3) (farVec : Vec3) (depth : Real) : Vec3 :=
  Vec3.add near (Vec3.smul depth farVec)

/-- Lines 645-650: the four probe-space landmarks, in the fixed order
unmarked near, marked near, unmarked far, marked far. -/
noncomputable def probePoints (markedCorner1 markedCorner2 unmarkedCorner1 unmarkedCorner2 : Vec3)
    (depth : Real) : List Vec3 :=
  let markedNearPoint := nearPoint markedCorner1 markedCorner2
  let unmarkedNearPoint := nearPoint unmarkedCorner1 unmarkedCorner2
  let markedUnmarkedVector := Vec3.sub unmarkedNearPoint markedNearPoint
  let markedCornerVector := Vec3.sub markedCorner2 markedCorner1
  let unmarkedCornerVector := Vec3.sub unmarkedCorner2 unmarkedCorner1
  let markedFarVector := farVector markedUnmarkedVector markedCornerVector
  let unmarkedFarVector := farVector markedUnmarkedVector unmarkedCornerVector
  [ unmarkedNearPoint,
    markedNearPoint,
    farPoint unmarkedNearPoint unmarkedFarVector depth,
    farPoint markedNearPoint markedFarVector depth ]

/-- Line 662: `pixelsToMmScale = depth / usImageDimensions[1]` (real
division by the y pixel dimension). -/
noncomputable def pixelsToMmScale (depth : Real) (heightPx : Nat) : Real :=
  depth / (heightPx : Real)

/-- Lines 664-665: the uniform-scale `vtkTransform` with scale factors
`(s, s, s)`, as a 4x4 homogeneous matrix. -/
noncomputable def pixelToMmMatrix (s : Real) : Mat4 :=
  Matrix.diagonal (fun i => if i = 3 then 1 else s)

/-- Lines 669-673: the four image points in millimetres, in the order
`(0,0,0)`, `(width*scale, 0, 0)`, `(0, depth, 0)`, `(width*scale, depth, 0)`. -/
noncomputable def imagePoints_ImageMm (widthPx heightPx : Nat) (depth : Real) : List Vec3 :=
  [ ⟨0, 0, 0⟩,
    ⟨(widthPx : Real) * pixelsToMmScale depth heightPx, 0, 0⟩,
    ⟨0, depth, 0⟩,
    ⟨(widthPx : Real) * pixelsToMmScale depth heightPx, depth, 0⟩ ]

/-- `ImagelessUSCalibrationLogic.ComputeCalibration` (lines 572-699).
`solve` stands for the external `vtkLandmarkTransform` in rigid-body mode:
it receives the source landmarks and the target landmarks and yields a 4x4
matrix.  The function follows the Python control flow exactly: early
returns for absent nodes, the two insufficient-point guards, the depth
parse (only `TypeError` is caught, so an unparseable attribute lets
`ValueError` escape), the missing-image and missing-output-node guards,
the division by the y dimension (which raises `ZeroDivisionError` when it
is zero), and finally the composed matrix
`imageMmToProbe * imagePixelToImageMm` together with the message
`"Success!"`. -/
noncomputable def computeCalibration (solve : List Vec3 → List Vec3 → Mat4)
    (usCalibrationNode : Option ImagelessNode) : Except String CalibOutcome :=
  match usCalibrationNode with
  | none => .ok ⟨none, none⟩
  | some s =>
    match s.markedPoints, s.unmarkedPoints with
    | some markedPointsList, some unmarkedPointsList =>
      if markedPointsList.length < 2 then
        .ok ⟨some "Insufficient number of marked corner points selected.", none⟩
      else if unmarkedPointsList.length < 2 then
        .ok ⟨some "Insufficient number of unmarked corner points selected.", none⟩
      else
        let markedCorner1 := markedPointsList.getD 0 ⟨0, 0, 0⟩
        let markedCorner2 := markedPointsList.getD 1 ⟨0, 0, 0⟩
        let unmarkedCorner1 := unmarkedPointsList.getD 0 ⟨0, 0, 0⟩
        let unmarkedCorner2 := unmarkedPointsList.getD 1 ⟨0, 0, 0⟩
        match s.depthAttr with
        | .missing => .ok ⟨some "Depth improperly specified.", none⟩
        | .unparseable => .error "ValueError"
        | .value depth =>
          match s.imageDimensions with
          | none => .ok ⟨some "No ultrasound image is selected.", none⟩
          | some (widthPx, heightPx) =>
            if heightPx = 0 then .error "ZeroDivisionError"
            else if s.hasOutputTransformNode = false then
              .ok ⟨some "No output ImageToProbe transform specified.", none⟩
            else
              let imageMmToProbe :=
                solve (imagePoints_ImageMm widthPx heightPx depth)
                  (probePoints markedCorner1 markedCorner2 unmarkedCorner1 unmarkedCorner2 depth)
              .ok ⟨some "Success!",
                some (imageMmToProbe * pixelToMmMatrix (pixelsToMmScale depth heightPx))⟩
    | _, _ => .ok ⟨none, none⟩

/-!
## Theorems
-/

/-- Removing the entry at the index one past a list reproduces the list of
one fewer entries: the `RemoveMarkup(GetNumberOfFiducials() - 1)` pattern. -/
theorem eraseIdx_concat {α : Type} (xs : List α) (p : α) :
    (xs ++ [p]).eraseIdx xs.length = xs := by
  rw [List.eraseIdx_append_of_length_le (Nat.le_refl _), Nat.sub_self]
  simp

/-- C7: `UndoPoints` removes exactly the last entry from each nonempty
list, is a no-op on an empty list (no error is raised: the embedding is a
total function), and in particular undoes an append on either or both
lists. -/
theorem undoPoints_spec {α : Type} (xs ys : List α) (p q : α) :
    undoPoints (xs ++ [p]) (ys ++ [q]) = (xs, ys) ∧
    undoPoints ([] : List α) ([] : List α) = ([], []) ∧
    undoPoints ([] : List α) (ys ++ [q]) = ([], ys) ∧
    undoPoints (xs ++ [p]) ([] : List α) = (xs, []) := by
  refine ⟨?_, rfl, ?_, ?_⟩ <;>
    simp [undoPoints, eraseIdx_concat]

/-- C8: `DeleteNthPoint` removes the entry at index `n` from each list
whose length exceeds `n` (leaving the prefix before `n` and the suffix
after `n`), and silently leaves any list of length at most `n` unchanged. -/
theorem deleteNthPoint_spec {α : Type} (xs ys : List α) (n : Nat) :
    ((n < xs.length → (deleteNthPoint xs ys n).1 = xs.take n ++ xs.drop (n + 1)) ∧
     (xs.length ≤ n → (deleteNthPoint xs ys n).1 = xs)) ∧
    ((n < ys.length → (deleteNthPoint xs ys n).2 = ys.take n ++ ys.drop (n + 1)) ∧
     (ys.length ≤ n → (deleteNthPoint xs ys n).2 = ys)) := by
  refine ⟨⟨fun h => ?_, fun h => ?_⟩, ⟨fun h => ?_, fun h => ?_⟩⟩
  · simp [deleteNthPoint, h, List.eraseIdx_eq_take_drop_succ]
  · simp [deleteNthPoint, Nat.not_lt.mpr h]
  · simp [deleteNthPoint, h, List.eraseIdx_eq_take_drop_succ]
  · simp [deleteNthPoint, Nat.not_lt.mpr h]

/-- Closed check of `deleteNthPoint_spec` at a concrete input: deleting
index 1 removes the middle entry of a 3-entry list and leaves a 1-entry
list untouched. -/
theorem deleteNthPoint_spec_witness :
    (deleteNthPoint [10, 20, 30] ([7] : List Nat) 1).1 = [10, 30] ∧
    (deleteNthPoint [10, 20, 30] ([7] : List Nat) 1).2 = [7] := by
  have h := deleteNthPoint_spec [10, 20, 30] ([7] : List Nat) 1
  exact ⟨by rw [h.1.1 (by decide)]; rfl, h.2.2 (by decide)⟩

/-- C9: each bookkeeping operation (`UndoPoints`, `DeleteNthPoint`,
`ResetPoints`) maps a pair of equal-length lists to a pair of equal-length
lists. -/
theorem syncInvariant_preserved {α : Type} (xs ys : List α) (n : Nat)
    (h : xs.length = ys.length) :
    (undoPoints xs ys).1.length = (undoPoints xs ys).2.length ∧
    (deleteNthPoint xs ys n).1.length = (deleteNthPoint xs ys n).2.length ∧
    (resetPoints xs ys).1.length = (resetPoints xs ys).2.length := by
  refine ⟨?_, ?_, rfl⟩
  · simp only [undoPoints, h]
    split_ifs <;> simp [List.length_eraseIdx, h]
  · simp only [deleteNthPoint, h]
    split_ifs <;> simp [List.length_eraseIdx, h]

/-- Closed check of `syncInvariant_preserved` at a concrete input. -/
theorem syncInvariant_preserved_witness :
    (undoPoints [1, 2] ([5, 6] : List Nat)).1.length = (undoPoints [1, 2] ([5, 6] : List Nat)).2.length ∧
    (deleteNthPoint [1, 2] ([5, 6] : List Nat) 0).1.length = (deleteNthPoint [1, 2] ([5, 6] : List Nat) 0).2.length ∧
    (resetPoints [1, 2] ([5, 6] : List Nat)).1.length = (resetPoints [1, 2] ([5, 6] : List Nat)).2.length :=
  syncInvariant_preserved [1, 2] [5, 6] 0 (by decide)

/-- C4: `ComputeErrors` yields a nonempty error table exactly when the
node and its three references are present, the two fiducial lists have
equal length, and that length is at least 3; in every other situation
(absent node, absent list or transform, unequal lengths, fewer than 3
pairs) the result is the empty list, and no error is raised since the
embedding is a total function. -/
theorem computeErrors_empty_iff (frwNode : Option FrwState) :
    computeErrors frwNode ≠ [] ↔
      ∃ s fromList toList M, frwNode = some s ∧
        s.fromFiducialList = some fromList ∧ s.toFiducialList = some toList ∧
        s.outputTransform = some M ∧
        fromList.length = toList.length ∧ 3 ≤ fromList.length := by
  constructor
  · intro hne
    match hfrw : frwNode with
    | none => simp [computeErrors] at hne
    | some s =>
      match hf : s.fromFiducialList, ht : s.toFiducialList, hM : s.outputTransform with
      | some fromList, some toList, some M =>
        refine ⟨s, fromList, toList, M, rfl, hf, ht, hM, ?_⟩
        simp only [computeErrors, hf, ht, hM] at hne
        by_cases hcond : fromList.length ≠ toList.length ∨ max fromList.length toList.length < 3
        · rw [if_pos hcond] at hne; exact absurd rfl hne
        · push_neg at hcond
          exact ⟨hcond.1, by omega⟩
      | none, _, _ => simp [computeErrors, hf] at hne
      | some _, none, _ => simp [computeErrors, hf, ht] at hne
      | some _, some _, none => simp [computeErrors, hf, ht, hM] at hne
  · rintro ⟨s, fromList, toList, M, rfl, hf, ht, hM, hlen, h3⟩
    simp only [computeErrors, hf, ht, hM]
    rw [if_neg (by omega)]
    simp only [ne_eq, List.map_eq_nil_iff, List.range_eq_nil]
    omega

/-- C3: on equal-length lists of length at least 3, `ComputeErrors`
returns one row per index, in index order, whose entries are the from
label, the to label, and the Euclidean distance between the transformed
from point and the to point; every such distance is nonnegative. -/
theorem computeErrors_rows (s : FrwState) (fromList toList : List Fiducial) (M : Mat4)
    (hf : s.fromFiducialList = some fromList) (ht : s.toFiducialList = some toList)
    (hM : s.outputTransform = some M)
    (hlen : fromList.length = toList.length) (h3 : 3 ≤ fromList.length) :
    (computeErrors (some s)).length = fromList.length ∧
    ∀ i, i < fromList.length →
      (computeErrors (some s)).getD i ⟨"", "", none⟩ =
        ⟨(fromList.getD i defaultFiducial).label,
         (toList.getD i defaultFiducial).label,
         some (dist3 (toList.getD i defaultFiducial).pos
           (transformPoint M (fromList.getD i defaultFiducial).pos))⟩ ∧
      0 ≤ dist3 (toList.getD i defaultFiducial).pos
            (transformPoint M (fromList.getD i defaultFiducial).pos) := by
  have hmax : max fromList.length toList.length = fromList.length := by omega
  have hrun : computeErrors (some s) =
      (List.range (max fromList.length toList.length)).map (errorRow fromList toList M) := by
    simp only [computeErrors, hf, ht, hM]
    rw [if_neg (by omega)]
  constructor
  · rw [hrun]; simp [hmax]
  · intro i hi
    refine ⟨?_, Real.sqrt_nonneg _⟩
    rw [hrun, hmax, List.getD_eq_getElem?_getD, List.getElem?_map, List.getElem?_range hi]
    have hi2 : i < toList.length := by omega
    simp [errorRow, hi, hi2]

/-- Concrete fiducial lists for exercising `computeErrors_rows`: three
paired points and the identity output transform. -/
def sampleFromFiducials : List Fiducial :=
  [⟨"F-1", ⟨0, 0, 0⟩⟩, ⟨"F-2", ⟨3, 0, 0⟩⟩, ⟨"F-3", ⟨0, 4, 0⟩⟩]

/-- Concrete target fiducials paired with `sampleFromFiducials`. -/
def sampleToFiducials : List Fiducial :=
  [⟨"T-1", ⟨0, 0, 0⟩⟩, ⟨"T-2", ⟨3, 0, 0⟩⟩, ⟨"T-3", ⟨0, 0, 0⟩⟩]

/-- Closed check of `computeErrors_rows` on the sample lists with the
identity transform. -/
theorem computeErrors_rows_witness :
    (computeErrors (some ⟨some sampleFromFiducials, some sampleToFiducials, some 1⟩)).length
      = sampleFromFiducials.length ∧
    ∀ i, i < sampleFromFiducials.length →
      (computeErrors (some ⟨some sampleFromFiducials, some sampleToFiducials, some 1⟩)).getD i
          ⟨"", "", none⟩ =
        ⟨(sampleFromFiducials.getD i defaultFiducial).label,
         (sampleToFiducials.getD i defaultFiducial).label,
         some (dist3 (sampleToFiducials.getD i defaultFiducial).pos
           (transformPoint 1 (sampleFromFiducials.getD i defaultFiducial).pos))⟩ ∧
      0 ≤ dist3 (sampleToFiducials.getD i defaultFiducial).pos
            (transformPoint 1 (sampleFromFiducials.getD i defaultFiducial).pos) :=
  computeErrors_rows ⟨some sampleFromFiducials, some sampleToFiducials, some 1⟩
    sampleFromFiducials sampleToFiducials 1 rfl rfl rfl rfl (by decide)

/-!
### Vector geometry lemmas for the corner-point reconstruction
-/

theorem Vec3.dot_self_nonneg (v : Vec3) : 0 ≤ Vec3.dot v v := by
  unfold Vec3.dot
  nlinarith [mul_self_nonneg v.x, mul_self_nonneg v.y, mul_self_nonneg v.z]

theorem Vec3.dot_self_eq_zero_iff (v : Vec3) : Vec3.dot v v = 0 ↔ v = ⟨0, 0, 0⟩ := by
  constructor
  · intro h
    unfold Vec3.dot at h
    rw [Vec3.vec3_ext_iff]
    refine ⟨?_, ?_, ?_⟩ <;> dsimp only <;>
      nlinarith [mul_self_nonneg v.x, mul_self_nonneg v.y, mul_self_nonneg v.z]
  · intro h; subst h; simp [Vec3.dot]

theorem Vec3.norm_nonneg2 (v : Vec3) : 0 ≤ Vec3.norm v := Real.sqrt_nonneg _

theorem Vec3.norm_eq_zero_iff (v : Vec3) : Vec3.norm v = 0 ↔ v = ⟨0, 0, 0⟩ := by
  unfold Vec3.norm
  rw [Real.sqrt_eq_zero (Vec3.dot_self_nonneg v)]
  exact Vec3.dot_self_eq_zero_iff v

theorem Vec3.norm_pos_of_ne (v : Vec3) (h : v ≠ ⟨0, 0, 0⟩) : 0 < Vec3.norm v := by
  rcases lt_or_eq_of_le (Vec3.norm_nonneg2 v) with hlt | heq
  · exact hlt
  · exact absurd ((Vec3.norm_eq_zero_iff v).mp heq.symm) h

theorem Vec3.dot_smul_left (c : Real) (v w : Vec3) :
    Vec3.dot (Vec3.smul c v) w = c * Vec3.dot v w := by
  unfold Vec3.dot Vec3.smul; ring

theorem Vec3.dot_smul_self (c : Real) (v : Vec3) :
    Vec3.dot (Vec3.smul c v) (Vec3.smul c v) = c ^ 2 * Vec3.dot v v := by
  unfold Vec3.dot Vec3.smul; ring

theorem Vec3.norm_smul (c : Real) (v : Vec3) :
    Vec3.norm (Vec3.smul c v) = |c| * Vec3.norm v := by
  unfold Vec3.norm
  rw [Vec3.dot_smul_self, Real.sqrt_mul (sq_nonneg c), Real.sqrt_sq_eq_abs]

theorem Vec3.norm_normalize (v : Vec3) (h : v ≠ ⟨0, 0, 0⟩) :
    Vec3.norm (Vec3.normalize v) = 1 := by
  have hp := Vec3.norm_pos_of_ne v h
  unfold Vec3.normalize
  rw [Vec3.norm_smul, abs_of_pos (inv_pos.mpr hp), inv_mul_cancel₀ (ne_of_gt hp)]

theorem Vec3.dot_cross_left (a b : Vec3) : Vec3.dot (Vec3.cross a b) a = 0 := by
  unfold Vec3.dot Vec3.cross; ring

theorem Vec3.dot_cross_right (a b : Vec3) : Vec3.dot (Vec3.cross a b) b = 0 := by
  unfold Vec3.dot Vec3.cross; ring

theorem Vec3.sub_add_cancel2 (a b : Vec3) : Vec3.sub (Vec3.add a b) a = b := by
  unfold Vec3.sub Vec3.add
  rw [Vec3.vec3_ext_iff]
  refine ⟨?_, ?_, ?_⟩ <;> dsimp <;> ring

/-- Distance from a near point to the corresponding far point: the
construction `farPoint near u depth` moves away from `near` by
`|depth| * norm u`. -/
theorem dist3_nearPoint_farPoint (near u : Vec3) (depth : Real) :
    dist3 near (farPoint near u depth) = |depth| * Vec3.norm u := by
  unfold dist3 farPoint
  rw [Vec3.sub_add_cancel2, Vec3.norm_smul]

/-- The depth direction of a side is orthogonal to both vectors it is
built from, because it is a normalized cross product. -/
theorem farVector_orthogonal (acrossVector cornerVector : Vec3) :
    Vec3.dot (farVector acrossVector cornerVector) acrossVector = 0 ∧
    Vec3.dot (farVector acrossVector cornerVector) cornerVector = 0 := by
  unfold farVector Vec3.normalize
  rw [Vec3.dot_smul_left, Vec3.dot_smul_left, Vec3.dot_cross_left, Vec3.dot_cross_right]
  constructor <;> ring

/-- C1: with two marked and two unmarked corner points whose cross
products are nonzero and depth `d > 0`, the four probe-space landmarks
`[unmarked near, marked near, unmarked far, marked far]` built by
`ComputeCalibration` satisfy: the distance from each near point to the far
point of the same side is exactly `d`, and the unit depth direction of
each side is orthogonal to the across vector and to the corner-to-corner
vector of that side. -/
theorem probePoints_geometry
    (markedCorner1 markedCorner2 unmarkedCorner1 unmarkedCorner2 : Vec3) (depth : Real)
    (hd : 0 < depth)
    (hm : Vec3.cross
        (Vec3.sub (nearPoint unmarkedCorner1 unmarkedCorner2) (nearPoint markedCorner1 markedCorner2))
        (Vec3.sub markedCorner2 markedCorner1) ≠ ⟨0, 0, 0⟩)
    (hu : Vec3.cross
        (Vec3.sub (nearPoint unmarkedCorner1 unmarkedCorner2) (nearPoint markedCorner1 markedCorner2))
        (Vec3.sub unmarkedCorner2 unmarkedCorner1) ≠ ⟨0, 0, 0⟩) :
    dist3 ((probePoints markedCorner1 markedCorner2 unmarkedCorner1 unmarkedCorner2 depth).getD 0 ⟨0, 0, 0⟩)
        ((probePoints markedCorner1 markedCorner2 unmarkedCorner1 unmarkedCorner2 depth).getD 2 ⟨0, 0, 0⟩)
      = depth ∧
    dist3 ((probePoints markedCorner1 markedCorner2 unmarkedCorner1 unmarkedCorner2 depth).getD 1 ⟨0, 0, 0⟩)
        ((probePoints markedCorner1 markedCorner2 unmarkedCorner1 unmarkedCorner2 depth).getD 3 ⟨0, 0, 0⟩)
      = depth ∧
    Vec3.dot
        (farVector
          (Vec3.sub (nearPoint unmarkedCorner1 unmarkedCorner2) (nearPoint markedCorner1 markedCorner2))
          (Vec3.sub markedCorner2 markedCorner1))
        (Vec3.sub (nearPoint unmarkedCorner1 unmarkedCorner2) (nearPoint markedCorner1 markedCorner2)) = 0 ∧
    Vec3.dot
        (farVector
          (Vec3.sub (nearPoint unmarkedCorner1 unmarkedCorner2) (nearPoint markedCorner1 markedCorner2))
          (Vec3.sub markedCorner2 markedCorner1))
        (Vec3.sub markedCorner2 markedCorner1) = 0 ∧
    Vec3.dot
        (farVector
          (Vec3.sub (nearPoint unmarkedCorner1 unmarkedCorner2) (nearPoint markedCorner1 markedCorner2))
          (Vec3.sub unmarkedCorner2 unmarkedCorner1))
        (Vec3.sub (nearPoint unmarkedCorner1 unmarkedCorner2) (nearPoint markedCorner1 markedCorner2)) = 0 ∧
    Vec3.dot
        (farVector
          (Vec3.sub (nearPoint unmarkedCorner1 unmarkedCorner2) (nearPoint markedCorner1 markedCorner2))
          (Vec3.sub unmarkedCorner2 unmarkedCorner1))
        (Vec3.sub unmarkedCorner2 unmarkedCorner1) = 0 := by
  have hdist : ∀ near cv : Vec3, Vec3.cross
      (Vec3.sub (nearPoint unmarkedCorner1 unmarkedCorner2) (nearPoint markedCorner1 markedCorner2)) cv
        ≠ ⟨0, 0, 0⟩ →
      dist3 near (farPoint near (farVector
        (Vec3.sub (nearPoint unmarkedCorner1 unmarkedCorner2) (nearPoint markedCorner1 markedCorner2)) cv)
        depth) = depth := by
    intro near cv hcv
    rw [dist3_nearPoint_farPoint, abs_of_pos hd]
    unfold farVector
    rw [Vec3.norm_normalize _ hcv, mul_one]
  refine ⟨?_, ?_, (farVector_orthogonal _ _).1, (farVector_orthogonal _ _).2,
    (farVector_orthogonal _ _).1, (farVector_orthogonal _ _).2⟩
  · simpa [probePoints] using hdist (nearPoint unmarkedCorner1 unmarkedCorner2) _ hu
  · simpa [probePoints] using hdist (nearPoint markedCorner1 markedCorner2) _ hm

/-- Closed check of `probePoints_geometry` on a concrete probe footprint:
the marked corners `(0,0,0)` and `(2,0,0)`, the unmarked corners `(0,2,0)`
and `(2,2,0)`, and depth 5. -/
theorem probePoints_geometry_witness :
    (0 : Real) < 5 ∧
    dist3 ((probePoints ⟨0, 0, 0⟩ ⟨2, 0, 0⟩ ⟨0, 2, 0⟩ ⟨2, 2, 0⟩ 5).getD 1 ⟨0, 0, 0⟩)
        ((probePoints ⟨0, 0, 0⟩ ⟨2, 0, 0⟩ ⟨0, 2, 0⟩ ⟨2, 2, 0⟩ 5).getD 3 ⟨0, 0, 0⟩) = 5 ∧
    Vec3.dot
        (farVector
          (Vec3.sub (nearPoint ⟨0, 2, 0⟩ ⟨2, 2, 0⟩) (nearPoint ⟨0, 0, 0⟩ ⟨2, 0, 0⟩))
          (Vec3.sub ⟨2, 0, 0⟩ ⟨0, 0, 0⟩))
        (Vec3.sub (nearPoint ⟨0, 2, 0⟩ ⟨2, 2, 0⟩) (nearPoint ⟨0, 0, 0⟩ ⟨2, 0, 0⟩)) = 0 := by
  have hcross : Vec3.cross
      (Vec3.sub (nearPoint ⟨0, 2, 0⟩ ⟨2, 2, 0⟩) (nearPoint ⟨0, 0, 0⟩ ⟨2, 0, 0⟩))
      (Vec3.sub (⟨2, 0, 0⟩ : Vec3) ⟨0, 0, 0⟩) ≠ ⟨0, 0, 0⟩ := by
    simp only [nearPoint, Vec3.add, Vec3.smul, Vec3.sub, Vec3.cross, Vec3.vec3_ext_iff]
    norm_num
  have hcross2 : Vec3.cross
      (Vec3.sub (nearPoint ⟨0, 2, 0⟩ ⟨2, 2, 0⟩) (nearPoint ⟨0, 0, 0⟩ ⟨2, 0, 0⟩))
      (Vec3.sub (⟨2, 2, 0⟩ : Vec3) ⟨0, 2, 0⟩) ≠ ⟨0, 0, 0⟩ := by
    simp only [nearPoint, Vec3.add, Vec3.smul, Vec3.sub, Vec3.cross, Vec3.vec3_ext_iff]
    norm_num
  have h := probePoints_geometry ⟨0, 0, 0⟩ ⟨2, 0, 0⟩ ⟨0, 2, 0⟩ ⟨2, 2, 0⟩ 5
    (by norm_num) hcross hcross2
  exact ⟨by norm_num, h.2.1, h.2.2.1⟩

/-!
### The `ComputeCalibration` control flow
-/

/-- Shared helper: when both corner lists are present with at least two
points, the depth attribute parses, the image is present with a nonzero y
dimension, and an output transform node is referenced, `ComputeCalibration`
reports `"Success!"` and writes the solver output composed with the
pixel-to-millimetre scaling. -/
theorem computeCalibration_success_run (s : ImagelessNode) (markedL unmarkedL : List Vec3)
    (widthPx heightPx : Nat) (depth : Real) (solve : List Vec3 → List Vec3 → Mat4)
    (hm : s.markedPoints = some markedL) (hu : s.unmarkedPoints = some unmarkedL)
    (hml : 2 ≤ markedL.length) (hul : 2 ≤ unmarkedL.length)
    (hdep : s.depthAttr = .value depth)
    (himg : s.imageDimensions = some (widthPx, heightPx))
    (hh : heightPx ≠ 0) (hout : s.hasOutputTransformNode = true) :
    computeCalibration solve (some s) = .ok ⟨some "Success!",
      some (solve (imagePoints_ImageMm widthPx heightPx depth)
        (probePoints (markedL.getD 0 ⟨0, 0, 0⟩) (markedL.getD 1 ⟨0, 0, 0⟩)
          (unmarkedL.getD 0 ⟨0, 0, 0⟩) (unmarkedL.getD 1 ⟨0, 0, 0⟩) depth)
        * pixelToMmMatrix (pixelsToMmScale depth heightPx))⟩ := by
  obtain ⟨mp, up, da, dims, ho⟩ := s
  simp only at hm hu hdep himg hout
  subst hm hu hdep himg hout
  simp only [computeCalibration]
  rw [if_neg (by omega), if_neg (by omega), if_neg hh]
  rfl

/-- C2: the pixel-to-millimetre scale is `depth / height_px`, the four
image-space source landmarks are `(0,0,0)`, `(width*scale, 0, 0)`,
`(0, depth, 0)`, `(width*scale, depth, 0)`, and under the preconditions
these are exactly the source points `ComputeCalibration` hands to the
similarity fit before composing with the uniform scale matrix. -/
theorem scale_and_imageCorners (s : ImagelessNode) (markedL unmarkedL : List Vec3)
    (widthPx heightPx : Nat) (depth : Real) (solve : List Vec3 → List Vec3 → Mat4)
    (hm : s.markedPoints = some markedL) (hu : s.unmarkedPoints = some unmarkedL)
    (hml : 2 ≤ markedL.length) (hul : 2 ≤ unmarkedL.length)
    (hdep : s.depthAttr = .value depth)
    (himg : s.imageDimensions = some (widthPx, heightPx))
    (hh : heightPx ≠ 0) (hout : s.hasOutputTransformNode = true) :
    pixelsToMmScale depth heightPx = depth / (heightPx : Real) ∧
    imagePoints_ImageMm widthPx heightPx depth =
      [ ⟨0, 0, 0⟩,
        ⟨(widthPx : Real) * (depth / (heightPx : Real)), 0, 0⟩,
        ⟨0, depth, 0⟩,
        ⟨(widthPx : Real) * (depth / (heightPx : Real)), depth, 0⟩ ] ∧
    computeCalibration solve (some s) = .ok ⟨some "Success!",
      some (solve (imagePoints_ImageMm widthPx heightPx depth)
        (probePoints (markedL.getD 0 ⟨0, 0, 0⟩) (markedL.getD 1 ⟨0, 0, 0⟩)
          (unmarkedL.getD 0 ⟨0, 0, 0⟩) (unmarkedL.getD 1 ⟨0, 0, 0⟩) depth)
        * pixelToMmMatrix (pixelsToMmScale depth heightPx))⟩ :=
  ⟨rfl, rfl,
    computeCalibration_success_run s markedL unmarkedL widthPx heightPx depth solve
      hm hu hml hul hdep himg hh hout⟩

/-- Closed check of `scale_and_imageCorners` at depth 100, image 400 x 500:
the scale is 0.2 and the image-mm corners are `(0,0,0)`, `(80,0,0)`,
`(0,100,0)`, `(80,100,0)`. -/
theorem scale_and_imageCorners_witness :
    pixelsToMmScale 100 500 = 0.2 ∧
    imagePoints_ImageMm 400 500 100 =
      [⟨0, 0, 0⟩, ⟨80, 0, 0⟩, ⟨0, 100, 0⟩, ⟨80, 100, 0⟩] ∧
    computeCalibration (fun _ _ => (1 : Mat4))
      (some ⟨some [⟨0, 0, 0⟩, ⟨2, 0, 0⟩], some [⟨0, 2, 0⟩, ⟨2, 2, 0⟩],
        .value 100, some (400, 500), true⟩) =
      .ok ⟨some "Success!", some ((1 : Mat4) * pixelToMmMatrix (pixelsToMmScale 100 500))⟩ := by
  have h := scale_and_imageCorners
    ⟨some [⟨0, 0, 0⟩, ⟨2, 0, 0⟩], some [⟨0, 2, 0⟩, ⟨2, 2, 0⟩], .value 100, some (400, 500), true⟩
    [⟨0, 0, 0⟩, ⟨2, 0, 0⟩] [⟨0, 2, 0⟩, ⟨2, 2, 0⟩] 400 500 100 (fun _ _ => (1 : Mat4))
    rfl rfl (by decide) (by decide) rfl rfl (by decide) rfl
  refine ⟨?_, ?_, h.2.2⟩
  · rw [h.1]; norm_num
  · rw [h.2.1]
    norm_num [List.cons.injEq, Vec3.mk.injEq]

/-- C5 counterexample: with both corner pairs populated but a depth
attribute that is present and not parseable as a number, the `float()`
call raises `ValueError`, which the `except TypeError` handler does not
catch, so the exception escapes `ComputeCalibration` with no status set. -/
theorem depth_unparseable_raises :
    computeCalibration (fun _ _ => (1 : Mat4))
      (some ⟨some [⟨0, 0, 0⟩, ⟨2, 0, 0⟩], some [⟨0, 2, 0⟩, ⟨2, 2, 0⟩],
        .unparseable, some (400, 500), true⟩)
      = .error "ValueError" := rfl

/-- C5 (amended): with both corner pairs populated and the depth attribute
absent, `ComputeCalibration` sets the status `"Depth improperly
specified."`, performs no transform update, and no exception escapes. -/
theorem depth_missing_status (s : ImagelessNode) (markedL unmarkedL : List Vec3)
    (solve : List Vec3 → List Vec3 → Mat4)
    (hm : s.markedPoints = some markedL) (hu : s.unmarkedPoints = some unmarkedL)
    (hml : 2 ≤ markedL.length) (hul : 2 ≤ unmarkedL.length)
    (hdep : s.depthAttr = .missing) :
    computeCalibration solve (some s) = .ok ⟨some "Depth improperly specified.", none⟩ := by
  obtain ⟨mp, up, da, dims, ho⟩ := s
  simp only at hm hu hdep
  subst hm hu hdep
  simp only [computeCalibration]
  rw [if_neg (by omega), if_neg (by omega)]

/-- Closed check of `depth_missing_status` at a concrete input. -/
theorem depth_missing_status_witness :
    computeCalibration (fun _ _ => (1 : Mat4))
      (some ⟨some [⟨0, 0, 0⟩, ⟨2, 0, 0⟩], some [⟨0, 2, 0⟩, ⟨2, 2, 0⟩],
        .missing, some (400, 500), true⟩)
      = .ok ⟨some "Depth improperly specified.", none⟩ :=
  depth_missing_status _ [⟨0, 0, 0⟩, ⟨2, 0, 0⟩] [⟨0, 2, 0⟩, ⟨2, 2, 0⟩] _
    rfl rfl (by decide) (by decide) rfl

/-- C6 counterexample: with all four corner points coincident the four
probe-space landmarks collapse to a single point (the cross products are
zero and `Normalize` leaves the zero vector), yet `ComputeCalibration`
does not report a failure: it reports `"Success!"` and overwrites the
output transform with the solver output composed with the scale matrix. -/
theorem degenerate_success_counterexample :
    probePoints ⟨0, 0, 0⟩ ⟨0, 0, 0⟩ ⟨0, 0, 0⟩ ⟨0, 0, 0⟩ 10 =
      [⟨0, 0, 0⟩, ⟨0, 0, 0⟩, ⟨0, 0, 0⟩, ⟨0, 0, 0⟩] ∧
    computeCalibration (fun _ _ => (1 : Mat4))
      (some ⟨some [⟨0, 0, 0⟩, ⟨0, 0, 0⟩], some [⟨0, 0, 0⟩, ⟨0, 0, 0⟩],
        .value 10, some (400, 500), true⟩)
      = .ok ⟨some "Success!", some ((1 : Mat4) * pixelToMmMatrix (pixelsToMmScale 10 500))⟩ := by
  constructor
  · simp [probePoints, nearPoint, farPoint, farVector, Vec3.normalize, Vec3.norm, Vec3.dot,
      Vec3.add, Vec3.sub, Vec3.smul, Vec3.cross, Vec3.vec3_ext_iff]
  · exact computeCalibration_success_run _ [⟨0, 0, 0⟩, ⟨0, 0, 0⟩] [⟨0, 0, 0⟩, ⟨0, 0, 0⟩]
      400 500 10 _ rfl rfl (by decide) (by decide) rfl rfl (by decide) rfl

/-- C6 (amended): `ComputeCalibration` performs no degeneracy check: even
when the four probe-space landmarks are fully coincident, it still
reports `"Success!"` and writes a transform to the output node. -/
theorem degenerate_still_success (s : ImagelessNode) (markedL unmarkedL : List Vec3)
    (widthPx heightPx : Nat) (depth : Real) (p : Vec3) (solve : List Vec3 → List Vec3 → Mat4)
    (hm : s.markedPoints = some markedL) (hu : s.unmarkedPoints = some unmarkedL)
    (hml : 2 ≤ markedL.length) (hul : 2 ≤ unmarkedL.length)
    (hdep : s.depthAttr = .value depth)
    (himg : s.imageDimensions = some (widthPx, heightPx))
    (hh : heightPx ≠ 0) (hout : s.hasOutputTransformNode = true)
    (hdeg : probePoints (markedL.getD 0 ⟨0, 0, 0⟩) (markedL.getD 1 ⟨0, 0, 0⟩)
        (unmarkedL.getD 0 ⟨0, 0, 0⟩) (unmarkedL.getD 1 ⟨0, 0, 0⟩) depth = [p, p, p, p]) :
    ∃ M : Mat4, computeCalibration solve (some s) = .ok ⟨some "Success!", some M⟩ :=
  ⟨_, computeCalibration_success_run s markedL unmarkedL widthPx heightPx depth solve
    hm hu hml hul hdep himg hh hout⟩

/-- Closed check of `degenerate_still_success` on the all-coincident
state. -/
theorem degenerate_still_success_witness :
    ∃ M : Mat4, computeCalibration (fun _ _ => (1 : Mat4))
      (some ⟨some [⟨0, 0, 0⟩, ⟨0, 0, 0⟩], some [⟨0, 0, 0⟩, ⟨0, 0, 0⟩],
        .value 10, some (400, 500), true⟩)
      = .ok ⟨some "Success!", some M⟩ :=
  degenerate_still_success _ [⟨0, 0, 0⟩, ⟨0, 0, 0⟩] [⟨0, 0, 0⟩, ⟨0, 0, 0⟩]
    400 500 10 ⟨0, 0, 0⟩ _ rfl rfl (by decide) (by decide) rfl rfl (by decide) rfl
    (by simp [probePoints, nearPoint, farPoint, farVector, Vec3.normalize, Vec3.norm,
      Vec3.dot, Vec3.add, Vec3.sub, Vec3.smul, Vec3.cross, Vec3.vec3_ext_iff])

/-- The first two `getD` reads agree on two lists that agree on their
first two entries. -/
theorem getD_take2_eq {α : Type} {xs ys : List α} (h : xs.take 2 = ys.take 2) (d : α) :
    xs.getD 0 d = ys.getD 0 d ∧ xs.getD 1 d = ys.getD 1 d := by
  have h0 : xs[0]? = ys[0]? := by
    rw [← List.getElem?_take_of_lt (show 0 < 2 by norm_num), h,
      List.getElem?_take_of_lt (show 0 < 2 by norm_num)]
  have h1 : xs[1]? = ys[1]? := by
    rw [← List.getElem?_take_of_lt (show 1 < 2 by norm_num), h,
      List.getElem?_take_of_lt (show 1 < 2 by norm_num)]
  rw [List.getD_eq_getElem?_getD, List.getD_eq_getElem?_getD, h0,
    List.getD_eq_getElem?_getD, List.getD_eq_getElem?_getD, h1]
  exact ⟨rfl, rfl⟩

/-- C10: two calibration states that agree on the first two marked
points, the first two unmarked points, the depth attribute, the image
dimensions and the output-node reference — but may differ in corner-list
entries at indices 2 and beyond — produce the identical status message
and the identical transform update. -/
theorem extraCorners_irrelevant (s1 s2 : ImagelessNode) (m1 u1 m2 u2 : List Vec3)
    (solve : List Vec3 → List Vec3 → Mat4)
    (hm1 : s1.markedPoints = some m1) (hu1 : s1.unmarkedPoints = some u1)
    (hm2 : s2.markedPoints = some m2) (hu2 : s2.unmarkedPoints = some u2)
    (hml1 : 2 ≤ m1.length) (hul1 : 2 ≤ u1.length)
    (hml2 : 2 ≤ m2.length) (hul2 : 2 ≤ u2.length)
    (hmt : m1.take 2 = m2.take 2) (hut : u1.take 2 = u2.take 2)
    (hdep : s1.depthAttr = s2.depthAttr)
    (himg : s1.imageDimensions = s2.imageDimensions)
    (hout : s1.hasOutputTransformNode = s2.hasOutputTransformNode) :
    computeCalibration solve (some s1) = computeCalibration solve (some s2) := by
  obtain ⟨mp1, up1, da1, dims1, ho1⟩ := s1
  obtain ⟨mp2, up2, da2, dims2, ho2⟩ := s2
  simp only at hm1 hu1 hm2 hu2 hdep himg hout
  subst hm1 hu1 hm2 hu2 hdep himg hout
  obtain ⟨hg0m, hg1m⟩ := getD_take2_eq hmt (⟨0, 0, 0⟩ : Vec3)
  obtain ⟨hg0u, hg1u⟩ := getD_take2_eq hut (⟨0, 0, 0⟩ : Vec3)
  simp only [computeCalibration]
  rw [if_neg (show ¬ m1.length < 2 by omega), if_neg (show ¬ u1.length < 2 by omega),
    if_neg (show ¬ m2.length < 2 by omega), if_neg (show ¬ u2.length < 2 by omega),
    hg0m, hg1m, hg0u, hg1u]

/-- Closed check of `extraCorners_irrelevant`: appending an extra marked
corner point beyond the first two does not change the calibration
output. -/
theorem extraCorners_irrelevant_witness :
    computeCalibration (fun _ _ => (1 : Mat4))
      (some ⟨some [⟨0, 0, 0⟩, ⟨2, 0, 0⟩], some [⟨0, 2, 0⟩, ⟨2, 2, 0⟩],
        .value 100, some (400, 500), true⟩) =
    computeCalibration (fun _ _ => (1 : Mat4))
      (some ⟨some [⟨0, 0, 0⟩, ⟨2, 0, 0⟩, ⟨9, 9, 9⟩], some [⟨0, 2, 0⟩, ⟨2, 2, 0⟩],
        .value 100, some (400, 500), true⟩) :=
  extraCorners_irrelevant _ _ [⟨0, 0, 0⟩, ⟨2, 0, 0⟩] [⟨0, 2, 0⟩, ⟨2, 2, 0⟩]
    [⟨0, 0, 0⟩, ⟨2, 0, 0⟩, ⟨9, 9, 9⟩] [⟨0, 2, 0⟩, ⟨2, 2, 0⟩] _
    rfl rfl rfl rfl (by decide) (by decide) (by decide) (by decide) rfl rfl rfl rfl rfl

end USCalib
